import Mathlib

/-!
# Verification of the game-of-life streaming server

A shallow embedding of the Go sources (`main.go`) of the game-of-life image
streaming server, together with proofs of the behavioural properties stated
in its design specification.

The embedding covers:
* the `Board` grid type, its bounds-checked accessor `Board.Get`, and the
  successor computation `Evolute`;
* the SVG encoder `Board.Svg` (the byte content of the payload is produced by
  the external `svgo` library, which the spec treats as an opaque collaborator;
  only the structure of the emitted rectangles and the absence of an error
  path are modelled);
* the broadcast hubs (`GameRender`, `ViewersRender`): membership as the key
  set of the Go map, and frame delivery through the non-blocking
  `select`/`default` send on each sink's unbuffered channel;
* the simulation loop (`GameRender.Start`) as a step function on an engine
  state, with a ghost counter of `Evolute` calls;
* the per-connection stream session (`streamHandleFunc`): the multipart
  framing bytes and the session's reaction to write errors and context
  cancellation;
* which goroutine performs each access to a hub's membership map, to settle
  the data-race question for the two hub implementations.
-/

/-! ## Grid model (`type Board [][]bool`, main.go:30) -/

abbrev Board := List (List Bool)

/-- `Board.Get` (main.go:32-40): bounds-checked cell read; any out-of-bounds
index yields `false` (dead), with no wraparound. -/
def Board.Get (b : Board) (i j : Int) : Bool :=
  if i < 0 ∨ (b.length : Int) ≤ i then false
  else
    let row := b.getD i.toNat []
    if j < 0 ∨ (row.length : Int) ≤ j then false
    else row.getD j.toNat false

/-- The eight neighbor offsets (`directions`, main.go:137-146). -/
def directions : List (Int × Int) :=
  [(1, 1), (1, 0), (1, -1), (0, 1), (0, -1), (-1, 1), (-1, 0), (-1, -1)]

/-- The neighbor counter `cnt` of `Evolute` (main.go:135-152): the number of
direction offsets at which `Board.Get` reports a live cell. -/
def neighborCnt (b : Board) (i j : Int) : Nat :=
  (directions.filter (fun d => b.Get (i + d.1) (j + d.2))).length

/-- The per-cell rule of `Evolute` (main.go:153-159): with exactly 2 live
neighbors the cell keeps its state, with exactly 3 it is live, otherwise
it is dead. -/
def evoluteCell (b : Board) (i j : Int) : Bool :=
  let cnt := neighborCnt b i j
  if cnt = 2 then b.Get i j
  else if cnt = 3 then true
  else false

/-- `Evolute` (main.go:130-163): builds a new board of the same shape whose
cell `(i, j)` is `evoluteCell` of the input board. -/
def Evolute (b : Board) : Board :=
  (List.range b.length).map fun (i : Nat) =>
    (List.range (b.getD i []).length).map fun (j : Nat) =>
      evoluteCell b (i : Int) (j : Int)

/-- A concrete board used to instantiate universally quantified theorems. -/
def sampleBoard : Board := [[true, true], [true, false]]

/-! ## Frames (`ImageBundle`, main.go:25-28) -/

/-- A frame: opaque payload bytes plus a content-type label. -/
structure ImageBundle where
  Data : List Nat
  ContentType : String
  deriving DecidableEq

/-! ## The SVG encoder (`Board.Svg`, main.go:87-102)

The spec (§1) treats the frame encoding as an opaque byte payload produced by
the external `svgo` library, which is not part of this repository; what the
embedding keeps is the structure of the canvas calls made by `Board.Svg` and
the fact that its single return statement returns a `nil` error. -/

/-- The rectangles emitted by the loop of `Board.Svg` (main.go:92-99): one
`k`-sized square at `(i*k, j*k)` for every live cell, in row-major order. -/
def svgRects (b : Board) (k : Int) : List (Int × Int × Int × Int) :=
  (List.range b.length).flatMap fun (i : Nat) =>
    (List.range (b.getD i []).length).flatMap fun (j : Nat) =>
      if (b.getD i []).getD j false then [((i : Int) * k, (j : Int) * k, k, k)]
      else []

/-- Modelled from the spec: the payload bytes written by `svgo` into the
buffer are opaque (spec §1); they are modelled as a stand-in encoding listing
the `canvas.Start` dimensions (main.go:91, with `len(b[0])` read as the length
of row 0, 0 for an empty board) followed by the emitted rectangles. No claim
inspects these bytes. -/
def svgPayload (b : Board) (k : Int) : List Nat :=
  [(k * b.length).natAbs, (k * ((b.getD 0 []).length : Int)).natAbs] ++
    ((svgRects b k).flatMap fun r =>
      [r.1.natAbs, r.2.1.natAbs, r.2.2.1.natAbs, r.2.2.2.natAbs])

/-- `Board.Svg` (main.go:87-102): renders the board onto an svg canvas backed
by an in-memory buffer and returns the buffer's bytes together with a `nil`
error — the function body contains no other return. -/
def Board.Svg (b : Board) (scale : Int) : List Nat × Option String :=
  (svgPayload b scale, none)

/-! ## Sinks and the non-blocking fan-out (main.go:202-207, 251-256) -/

/-- One session's sink: the unbuffered channel `ch` created at main.go:273,
seen from the hub side. `receiverReady` is true when the owning session is
blocked in `case data := <-ch` (main.go:288), i.e. exactly when a send on the
unbuffered channel can complete immediately; `delivered` records the frames
handed over to the session so far. -/
structure Sink where
  id : Nat
  receiverReady : Bool
  delivered : List ImageBundle
  deriving DecidableEq

/-- The non-blocking send `select { case ch <- bundle: default: }`
(main.go:203-206 and 252-255): the send completes only if the receiver can
take the value now; otherwise the `default` branch skips this sink for this
cycle. -/
def trySend (s : Sink) (f : ImageBundle) : Sink :=
  if s.receiverReady then
    { s with receiverReady := false, delivered := s.delivered ++ [f] }
  else s

/-- The fan-out loop `for ch := range ... { select ... }` (main.go:202-207 and
251-256): every registered sink gets one non-blocking send attempt. -/
def publishFrame (f : ImageBundle) (sinks : List Sink) : List Sink :=
  sinks.map fun s => trySend s f

/-! ## The simulation loop (`GameRender.Start`, main.go:181-211) -/

/-- The state of the simulation goroutine: the current board, the registered
sinks (`r.gameChs`, here carried with their channel state), and a ghost
counter of `Evolute` calls (the "step counter exposed for testing" of
spec §8). -/
structure EngineState where
  board : Board
  members : List Sink
  evolveCount : Nat
  deriving DecidableEq

/-- One iteration of the loop body of `GameRender.Start` (main.go:185-208):
with no registered sink the iteration only sleeps and continues, touching
nothing; otherwise the board is advanced by `Evolute`, encoded by
`Board.Svg 10`, and — when the returned error is `nil` — the frame is
published to every sink by a non-blocking send; a non-nil error would be
printed and the publish skipped (`continue`, main.go:193-196). -/
def engineStep (s : EngineState) : EngineState :=
  if s.members.isEmpty then s
  else
    let b := Evolute s.board
    let enc := b.Svg 10
    match enc.2 with
    | some _ =>
      { board := b, members := s.members, evolveCount := s.evolveCount + 1 }
    | none =>
      { board := b,
        members := publishFrame ⟨enc.1, "image/svg+xml"⟩ s.members,
        evolveCount := s.evolveCount + 1 }

/-! ## Hub membership (main.go:213-218 and 261-266)

The Go maps `r.gameChs` and `viewers` map channels to `struct{}{}`; their
observable content is their key set, modelled as a `Finset` of sink ids. -/

/-- `GameRender.Register` (main.go:214): `r.gameChs[c] = struct{}{}`. -/
def GameRender.register (chs : Finset Nat) (c : Nat) : Finset Nat :=
  insert c chs

/-- The deregistration closure returned by `GameRender.Register`
(main.go:215-217): every invocation runs `delete(r.gameChs, c)`. -/
def GameRender.unregister (chs : Finset Nat) (c : Nat) : Finset Nat :=
  chs.erase c

/-- `ViewersRender`'s owner goroutine handling one join event
(main.go:240-241): `viewers[c] = struct{}{}`. -/
def ViewersRender.processJoin (viewers : Finset Nat) (c : Nat) : Finset Nat :=
  insert c viewers

/-- `ViewersRender`'s owner goroutine handling one leave event
(main.go:242-243): `delete(viewers, c)`; the closure returned by
`ViewersRender.Register` sends one leave event per invocation
(main.go:263-265). -/
def ViewersRender.processLeave (viewers : Finset Nat) (c : Nat) : Finset Nat :=
  viewers.erase c

/-! ## Stream sessions (`streamHandleFunc`, main.go:271-303) -/

/-- The multipart boundary constant (main.go:278). -/
def boundary : String := "BOUNDARY"

/-- The value set for the response's Content-Type header (main.go:279). -/
def streamContentType : String :=
  "multipart/x-mixed-replace; boundary=" ++ boundary

/-- The bytes of a string. -/
def strBytes (s : String) : List Nat := s.toList.map Char.toNat

/-- The four `w.Write` calls issued for one received frame (main.go:290-293),
in order. -/
def frameWrites (data : ImageBundle) : List (List Nat) :=
  [strBytes ("\r\n--" ++ boundary ++ "\r\n"),
   strBytes ("Content-Type: " ++ data.ContentType ++ "\r\n"),
   strBytes ("Content-Length: " ++ toString data.Data.length ++ "\r\n\r\n"),
   data.Data]

/-- The framing required by the spec (§6): `\r\n--BOUNDARY\r\n`, the
Content-Type line, the Content-Length line followed by a blank line, then the
raw frame bytes. -/
def specFramePart (data : ImageBundle) : List Nat :=
  strBytes "\r\n--BOUNDARY\r\n" ++
    strBytes ("Content-Type: " ++ data.ContentType ++ "\r\n") ++
    strBytes ("Content-Length: " ++ toString data.Data.length ++ "\r\n\r\n") ++
    data.Data

/-- The session's lifecycle states (spec §4.3). -/
inductive SessionState where
  | streaming
  | closed
  deriving DecidableEq

/-- A session: its lifecycle state and whether its sink is still registered
with the hub. -/
structure Session where
  state : SessionState
  registered : Bool
  deriving DecidableEq

/-- An event observed by the session loop (main.go:284-301): cancellation of
the request context, or a frame arriving on the sink, the latter carrying the
error results of the four writes it triggers. -/
inductive SessionEvent where
  | ctxDone
  | frame (f : ImageBundle) (e1 e2 e3 e4 : Option String)
  deriving DecidableEq

/-- One iteration of the `for { select ... } }` loop of `streamHandleFunc`
(main.go:284-301). On context cancellation the handler returns and the
deferred `unregister()` (main.go:276) runs, so the session closes and leaves
the hub. On a received frame the four writes run; `err` is re-assigned by
each write, so only the fourth write's error is inspected (main.go:289-296),
and a non-nil error is only printed (`fmt.Println`) — the loop then continues
in the same state. The second component is the iteration's log output. -/
def sessionStep (s : Session) (e : SessionEvent) : Session × List String :=
  match e with
  | .ctxDone => ({ state := .closed, registered := false }, [])
  | .frame _ _ _ _ e4 =>
    (s, match e4 with
        | some m => [m]
        | none => [])

/-! ## Goroutine accesses to the membership maps -/

/-- The goroutines that touch a hub's membership map: the HTTP handler
goroutine running `Register`/the returned closure, and the goroutine the hub
spawns in `Start`. -/
inductive GoTask where
  | handler
  | hubOwner
  deriving DecidableEq

/-- A memory access kind. -/
inductive MemAccess where
  | read
  | write
  deriving DecidableEq

/-- The accesses to the `GameRender` membership map `r.gameChs`, tagged with
the goroutine executing them: `Register`'s insert (main.go:214) and the
returned closure's delete (main.go:216) run on the calling handler goroutine,
while the loop spawned by `Start` reads `len(r.gameChs)` (main.go:186) and
iterates `range r.gameChs` (main.go:202) on its own goroutine. The code takes
no lock around any of these. -/
def gameChsAccesses : List (GoTask × MemAccess) :=
  [(.handler, .write), (.handler, .write), (.hubOwner, .read), (.hubOwner, .read)]

/-- The accesses to the `ViewersRender` membership map `viewers`: it is a
local variable of the owner goroutine, which alone inserts (main.go:241),
deletes (main.go:243) and iterates (main.go:251) it; `Register` and its
closure only send on the `viewerJoin`/`viewerLeave` channels
(main.go:262-264). -/
def viewersAccesses : List (GoTask × MemAccess) :=
  [(.hubOwner, .write), (.hubOwner, .write), (.hubOwner, .read)]

/-- Two accesses from different goroutines, at least one a write, with no
synchronization between them, form a data race (the Go memory model forbids
unsynchronized concurrent map read/write; the code has no locks at all). -/
def hasDataRace (accesses : List (GoTask × MemAccess)) : Bool :=
  accesses.any fun a => accesses.any fun b =>
    a.1 != b.1 && (a.2 == MemAccess.write || b.2 == MemAccess.write)

/-! ## Concrete values used to instantiate theorems -/

/-- A concrete frame. -/
def sampleBundle : ImageBundle := ⟨[7, 7, 7], "image/svg+xml"⟩

/-- A sink whose session has not yet consumed the previous frame. -/
def busySink : Sink := ⟨0, false, [sampleBundle]⟩

/-- A sink whose session is blocked waiting for the next frame. -/
def freeSink : Sink := ⟨1, true, []⟩

/-- An engine state with no registered sink. -/
def idleEngine : EngineState := ⟨sampleBoard, [], 0⟩

/-- An engine state with one registered sink. -/
def busyEngine : EngineState := ⟨sampleBoard, [freeSink], 0⟩

/-! ### Shape lemmas for `Evolute` -/

theorem evolute_length (b : Board) : (Evolute b).length = b.length := by
  simp [Evolute]

theorem evolute_row (b : Board) (i : Nat) (hi : i < b.length) :
    (Evolute b).getD i [] =
      (List.range (b.getD i []).length).map
        (fun (j : Nat) => evoluteCell b (i : Int) (j : Int)) := by
  unfold Evolute
  rw [List.getD_eq_getElem _ _ (by simpa using hi)]
  simp

theorem evolute_row_length (b : Board) (i : Nat) :
    ((Evolute b).getD i []).length = (b.getD i []).length := by
  by_cases hi : i < b.length
  · rw [evolute_row b i hi, List.length_map, List.length_range]
  · push_neg at hi
    rw [List.getD_eq_default _ _ (by simpa [evolute_length] using hi),
      List.getD_eq_default _ _ (by simpa using hi)]

theorem evolute_cell_value (b : Board) (i j : Nat) (hi : i < b.length)
    (hj : j < (b.getD i []).length) :
    ((Evolute b).getD i []).getD j false = evoluteCell b (i : Int) (j : Int) := by
  rw [evolute_row b i hi]
  rw [List.getD_eq_getElem _ _ (by rw [List.length_map, List.length_range]; exact hj)]
  rw [List.getElem_map, List.getElem_range]

/-! ### `Board.Get` on in-bounds and out-of-bounds positions -/

theorem get_inbounds (b : Board) (i j : Nat) (hi : i < b.length)
    (hj : j < (b.getD i []).length) :
    b.Get i j = (b.getD i []).getD j false := by
  have h1 : ¬((i : Int) < 0 ∨ (b.length : Int) ≤ (i : Int)) := by omega
  simp only [Board.Get, h1, if_false, Int.toNat_natCast]
  have h2 : ¬((j : Int) < 0 ∨ ((b.getD i []).length : Int) ≤ (j : Int)) := by omega
  simp only [h2, if_false]

theorem get_oob (b : Board) (p q : Int)
    (h : p < 0 ∨ (b.length : Int) ≤ p ∨ q < 0 ∨
      ((b.getD p.toNat []).length : Int) ≤ q) :
    b.Get p q = false := by
  simp only [Board.Get]
  by_cases h1 : p < 0 ∨ (b.length : Int) ≤ p
  · rw [if_pos h1]
  · rw [if_neg h1]
    have h2 : q < 0 ∨ ((b.getD p.toNat []).length : Int) ≤ q := by tauto
    rw [if_pos h2]

/-! ## C1: the life rule of `Evolute` -/

/-- C1: for every grid and every in-bounds cell, the successor grid computed by
`Evolute` has that cell live iff either the cell is live with exactly 2 or 3
live neighbors, or the cell is dead with exactly 3 live neighbors; and every
out-of-bounds position is read as dead by `Board.Get` (no wraparound), so the
neighbor count over the eight adjacent positions counts out-of-bounds
positions as dead. -/
theorem evolute_life_rule (b : Board) (i j : Nat) (hi : i < b.length)
    (hj : j < (b.getD i []).length) :
    ((Evolute b).Get i j = true ↔
      ((b.Get i j = true ∧ (neighborCnt b i j = 2 ∨ neighborCnt b i j = 3)) ∨
       (b.Get i j = false ∧ neighborCnt b i j = 3)))
    ∧ ∀ p q : Int,
        (p < 0 ∨ (b.length : Int) ≤ p ∨ q < 0 ∨
          ((b.getD p.toNat []).length : Int) ≤ q) →
        b.Get p q = false := by
  constructor
  · have hi' : i < (Evolute b).length := by rw [evolute_length]; exact hi
    have hj' : j < ((Evolute b).getD i []).length := by
      rw [evolute_row_length]; exact hj
    rw [get_inbounds (Evolute b) i j hi' hj', evolute_cell_value b i j hi hj]
    unfold evoluteCell
    rw [get_inbounds b i j hi hj]
    by_cases h2 : neighborCnt b (i : Int) (j : Int) = 2
    · cases hb : (b.getD i []).getD j false <;> simp [h2, hb]
    · by_cases h3 : neighborCnt b (i : Int) (j : Int) = 3
      · cases hb : (b.getD i []).getD j false <;> simp [h2, h3, hb]
      · simp [h2, h3]
  · exact fun p q h => get_oob b p q h

/-- Witness for C1: on `sampleBoard`, cell (1,1) is dead with exactly 3 live
neighbors and comes alive, and position (-1, 0) is out of bounds and reads
dead. -/
theorem evolute_life_rule_witness :
    1 < sampleBoard.length ∧ 1 < (sampleBoard.getD 1 []).length ∧
    ((Evolute sampleBoard).Get 1 1 = true ↔
      ((sampleBoard.Get 1 1 = true ∧
        (neighborCnt sampleBoard 1 1 = 2 ∨ neighborCnt sampleBoard 1 1 = 3)) ∨
       (sampleBoard.Get 1 1 = false ∧ neighborCnt sampleBoard 1 1 = 3))) ∧
    sampleBoard.Get (-1) 0 = false :=
  ⟨by decide, by decide,
    (evolute_life_rule sampleBoard 1 1 (by decide) (by decide)).1,
    (evolute_life_rule sampleBoard 1 1 (by decide) (by decide)).2 (-1) 0
      (by decide)⟩

/-! ## C2: non-blocking publish, no per-sink queue -/

theorem foldl_trySend_busy (fs : List ImageBundle) (s : Sink)
    (h : s.receiverReady = false) : fs.foldl trySend s = s := by
  induction fs with
  | nil => rfl
  | cons f fs ih => rw [List.foldl_cons, trySend, if_neg (by rw [h]; exact
      Bool.false_ne_true), ih]

/-- C2: publishing a frame attempts one non-blocking send per registered
sink; a sink whose channel cannot accept the frame immediately (receiver not
ready) is skipped unchanged for this cycle, a ready sink receives exactly
this one frame; and publishing any number of frames while the session does
not consume grows a sink's delivered frames by at most one — never a queue
of N. (Publish is a total function of the state, so it never blocks on any
sink.) -/
theorem publish_nonblocking :
    (∀ (f : ImageBundle) (sinks : List Sink) (s : Sink), s ∈ sinks →
      (trySend s f ∈ publishFrame f sinks ∧
       (s.receiverReady = false → trySend s f = s) ∧
       (s.receiverReady = true → (trySend s f).delivered = s.delivered ++ [f]))) ∧
    (∀ (fs : List ImageBundle) (s : Sink),
      (fs.foldl trySend s).delivered.length ≤ s.delivered.length + 1) := by
  constructor
  · intro f sinks s hs
    refine ⟨List.mem_map_of_mem _ hs, fun hb => ?_, fun hr => ?_⟩
    · rw [trySend, if_neg (by rw [hb]; exact Bool.false_ne_true)]
    · rw [trySend, if_pos hr]
  · intro fs s
    cases hr : s.receiverReady with
    | false => rw [foldl_trySend_busy fs s hr]; omega
    | true =>
      cases fs with
      | nil => simp
      | cons f fs =>
        rw [List.foldl_cons, trySend, if_pos hr,
          foldl_trySend_busy fs _ rfl]
        simp

/-- Witness for C2: the busy sink is skipped unchanged by a publish, and
three publishes without a consume leave the free sink with one delivered
frame. -/
theorem publish_nonblocking_witness :
    busySink ∈ [busySink, freeSink] ∧
    trySend busySink sampleBundle ∈ publishFrame sampleBundle [busySink, freeSink] ∧
    busySink.receiverReady = false ∧
    trySend busySink sampleBundle = busySink ∧
    (([sampleBundle, sampleBundle, sampleBundle].foldl trySend
        freeSink).delivered.length ≤ freeSink.delivered.length + 1) :=
  ⟨by decide,
   (publish_nonblocking.1 sampleBundle [busySink, freeSink] busySink
     (by decide)).1,
   by decide,
   (publish_nonblocking.1 sampleBundle [busySink, freeSink] busySink
     (by decide)).2.1 (by decide),
   publish_nonblocking.2 [sampleBundle, sampleBundle, sampleBundle] freeSink⟩

/-! ## C5: no work without viewers -/

/-- C5: with no sink registered, one engine step changes nothing — the board
is untouched, the `Evolute` call counter does not advance, and no frame is
published to anyone — and the same holds after any number of idle cycles. -/
theorem idle_engine_no_work (s : EngineState) (h : s.members = []) :
    engineStep s = s ∧
    ∀ n : Nat, (engineStep^[n] s).board = s.board ∧
      (engineStep^[n] s).evolveCount = s.evolveCount ∧
      (engineStep^[n] s).members = [] := by
  have h1 : engineStep s = s := by
    rw [engineStep, if_pos (by rw [h]; rfl)]
  have key : ∀ n : Nat, engineStep^[n] s = s := by
    intro n
    induction n with
    | zero => rfl
    | succ k ih => rw [Function.iterate_succ_apply, h1, ih]
  exact ⟨h1, fun n => by rw [key n]; exact ⟨rfl, rfl, h⟩⟩

/-- Witness for C5: the concrete idle engine is unchanged by 5 cycles. -/
theorem idle_engine_no_work_witness :
    idleEngine.members = [] ∧
    engineStep idleEngine = idleEngine ∧
    (engineStep^[5] idleEngine).board = idleEngine.board ∧
    (engineStep^[5] idleEngine).evolveCount = idleEngine.evolveCount :=
  ⟨rfl, (idle_engine_no_work idleEngine rfl).1,
   ((idle_engine_no_work idleEngine rfl).2 5).1,
   ((idle_engine_no_work idleEngine rfl).2 5).2.1⟩

/-! ## C6: idempotent deregistration -/

/-- C6: invoking the deregistration capability twice leaves the membership
exactly as invoking it once, for the `GameRender` map delete and for the
`ViewersRender` leave-event delete alike. -/
theorem unregister_idempotent (chs viewers : Finset Nat) (c : Nat) :
    GameRender.unregister (GameRender.unregister chs c) c =
      GameRender.unregister chs c ∧
    ViewersRender.processLeave (ViewersRender.processLeave viewers c) c =
      ViewersRender.processLeave viewers c :=
  ⟨Finset.erase_idem, Finset.erase_idem⟩

/-! ## C7: join then leave restores the membership -/

/-- C7: registering a sink that is not currently a member and then invoking
the returned deregistration capability restores the membership set (hence its
count) to its prior value, for both hub implementations. -/
theorem join_then_leave_restores (chs viewers : Finset Nat) (c d : Nat)
    (h1 : c ∉ chs) (h2 : d ∉ viewers) :
    GameRender.unregister (GameRender.register chs c) c = chs ∧
    ViewersRender.processLeave (ViewersRender.processJoin viewers d) d =
      viewers :=
  ⟨Finset.erase_insert h1, Finset.erase_insert h2⟩

/-- Witness for C7 on concrete memberships. -/
theorem join_then_leave_restores_witness :
    (0 : Nat) ∉ (∅ : Finset Nat) ∧ (2 : Nat) ∉ ({1} : Finset Nat) ∧
    GameRender.unregister (GameRender.register ∅ 0) 0 = (∅ : Finset Nat) ∧
    ViewersRender.processLeave (ViewersRender.processJoin {1} 2) 2 =
      ({1} : Finset Nat) :=
  ⟨by decide, by decide,
   (join_then_leave_restores ∅ {1} 0 2 (by decide) (by decide)).1,
   (join_then_leave_restores ∅ {1} 0 2 (by decide) (by decide)).2⟩

/-! ## C8: `Evolute` preserves the grid's shape -/

/-- C8: the successor grid has exactly as many rows as the input and every
row keeps its length; as a pure function of the input list, `Evolute` builds
its result with fresh `List.map`/`List.range` nodes and leaves the input
untouched. -/
theorem evolute_preserves_shape (b : Board) :
    (Evolute b).length = b.length ∧
    ∀ i : Nat, ((Evolute b).getD i []).length = (b.getD i []).length :=
  ⟨evolute_length b, fun i => evolute_row_length b i⟩

/-! ## C9: the multipart framing -/

/-- C9: the bytes written for one frame are exactly the spec's framing — the
boundary line, the Content-Type line, the Content-Length line (whose declared
value is the decimal length of the very payload written afterwards), a blank
line, then the raw payload — and the response's Content-Type header is
`multipart/x-mixed-replace; boundary=BOUNDARY`. -/
theorem frame_serialization (d : ImageBundle) :
    (frameWrites d).flatten = specFramePart d ∧
    streamContentType = "multipart/x-mixed-replace; boundary=BOUNDARY" := by
  constructor
  · simp only [frameWrites, specFramePart, List.flatten, List.append_nil,
      List.append_assoc]
    rfl
  · rfl

/-! ## C10: the SVG encoder cannot fail -/

/-- C10: `Board.Svg` always returns a `nil` error, so the simulation loop's
encoding-failure branch is dead: with at least one registered sink,
`engineStep` always takes the publish path. -/
theorem svg_never_fails :
    (∀ (b : Board) (scale : Int), (b.Svg scale).2 = none) ∧
    (∀ s : EngineState, s.members.isEmpty = false →
      engineStep s =
        { board := Evolute s.board,
          members := publishFrame
            ⟨((Evolute s.board).Svg 10).1, "image/svg+xml"⟩ s.members,
          evolveCount := s.evolveCount + 1 }) := by
  refine ⟨fun b scale => rfl, fun s h => ?_⟩
  rw [engineStep, if_neg (by rw [h]; exact Bool.false_ne_true)]
  rfl

/-- Witness for C10: the one-sink engine takes the publish path. -/
theorem svg_never_fails_witness :
    (sampleBoard.Svg 10).2 = none ∧
    busyEngine.members.isEmpty = false ∧
    engineStep busyEngine =
      { board := Evolute busyEngine.board,
        members := publishFrame
          ⟨((Evolute busyEngine.board).Svg 10).1, "image/svg+xml"⟩
          busyEngine.members,
        evolveCount := busyEngine.evolveCount + 1 } :=
  ⟨svg_never_fails.1 sampleBoard 10, rfl, svg_never_fails.2 busyEngine rfl⟩

/-! ## C3: what a write failure actually does to a session -/

/-- C3 (evaluation of the code at the failing input): a write failure while
serializing a frame does NOT terminate the session — `sessionStep` leaves it
`streaming` and still registered, merely logging the error — whereas context
cancellation is what closes and deregisters it. This contradicts the claim
that a write failure transitions the session to `Closed` and triggers its
deregistration. -/
theorem write_error_keeps_session_open :
    (sessionStep ⟨.streaming, true⟩
        (.frame sampleBundle none none none (some "broken pipe"))).1 =
      ⟨SessionState.streaming, true⟩ ∧
    (sessionStep ⟨.streaming, true⟩
        (.frame sampleBundle none none none (some "broken pipe"))).2 =
      ["broken pipe"] ∧
    (sessionStep ⟨.streaming, true⟩ .ctxDone).1 =
      ⟨SessionState.closed, false⟩ :=
  ⟨rfl, rfl, rfl⟩

/-! ## C4: concurrent membership safety -/

/-- C4 (evaluation of the code): the `GameRender` membership map is written
by the handler goroutine (`Register` and the closure it returns) while the
hub's own goroutine reads and iterates it, with no synchronization anywhere —
a data race, so Join is NOT safe to call concurrently with Publish for this
implementation. The `ViewersRender` map is confined to its owner goroutine
and is race-free. -/
theorem gameChs_membership_race :
    hasDataRace gameChsAccesses = true ∧
    hasDataRace viewersAccesses = false := by
  decide
